import Mathlib

/-!
# Verification of the payment/balance-transfer core

Shallow embedding of the job-marketplace backend: the transfer engine
(src/src/utils.js), the job-payment handler (POST /jobs/:job_id/pay) and the
deposit handler (POST /balances/deposit/:userId) of src/src/app.js.

Monetary amounts are modelled as rationals (JavaScript numbers; all the
arithmetic the handlers perform on them is exact on rationals).  Database
tables are lists of rows.  Each `UPDATE ... SET balance = balance ± x` SQL
statement built via sequelize.literal is an atomic relative update inside the
database engine; it is modelled by `applyOp`.
-/

namespace DeelBackend

/-- Modelled from the spec: the Profile row of the Sequelize data model
(src/model.js is not under src/); §3 DATA MODEL gives id and a monetary
balance.  The role field is never consulted by the handlers and is omitted. -/
structure Profile where
  id : Nat
  balance : ℚ
deriving Repr, DecidableEq

/-- Modelled from the spec: the Contract row; §3 gives id, clientId,
contractorId (in the code the Sequelize association columns ClientId and
ContractorId).  The status field is never consulted by the payment core. -/
structure Contract where
  id : Nat
  clientId : Nat
  contractorId : Nat
deriving Repr, DecidableEq

/-- Modelled from the spec: the Job row; §3 gives id, a contract reference, a
price, a nullable-boolean paid flag and a paymentDate.  The code only ever
writes paid := true and filters on paid IS NULL, so paid is an Option Bool
(none = SQL NULL = unpaid). -/
structure Job where
  id : Nat
  contractId : Nat
  price : ℚ
  paid : Option Bool
  paymentDate : Option Nat
deriving Repr, DecidableEq

/-- The persistent state: the three tables. -/
structure DB where
  profiles : List Profile
  contracts : List Contract
  jobs : List Job
deriving Repr, DecidableEq

/-- Modelled from the spec: the Job model has exactly the attributes of §3
(id, contract reference, price, paid, paymentDate) and in particular no
`value` attribute, so the JavaScript property access `job.value` at
src/src/app.js (insufficient-balance check of the pay handler) evaluates to
`undefined`, modelled as `none`. -/
def Job.value (_ : Job) : Option ℚ := none

/-- JavaScript relational comparison of a number with a possibly-undefined
value: `x < undefined` is `false` (NaN comparison); otherwise numeric. -/
def jsLtOpt (x : ℚ) (y : Option ℚ) : Bool :=
  match y with
  | none => false
  | some v => decide (x < v)

/-- JavaScript truthiness of a nullable boolean column: `null`/`undefined`
are falsy, a boolean is itself. -/
def jsTruthy : Option Bool → Bool
  | none => false
  | some b => b

/-- JavaScript numeric coercion of a nullable aggregate: `null` coerces to 0
in arithmetic (`25 * null / 100 = 0`). -/
def jsNum : Option ℚ → ℚ
  | none => 0
  | some v => v

/-- One SQL statement `UPDATE Profiles SET balance = balance + delta WHERE id
= pid` (sequelize.literal in src/src/utils.js emits `balance - amount` for the
payer and `balance + amount` for the receiver).  The read-modify-write happens
inside the database engine as one atomic statement. -/
structure BalanceOp where
  pid : Nat
  delta : ℚ
deriving Repr, DecidableEq

/-- Execute one atomic relative balance update against the Profiles table:
every row matching the WHERE id clause gets the delta added. -/
def applyOp (ps : List Profile) (op : BalanceOp) : List Profile :=
  ps.map fun p => if p.id = op.pid then { p with balance := p.balance + op.delta } else p

/-- Execute a list of atomic balance updates in order. -/
def execOps (ps : List Profile) (ops : List BalanceOp) : List Profile :=
  ops.foldl applyOp ps

/-- The two SQL statements issued by `transfer(from, to, amount)` in
src/src/utils.js: decrement the payer, increment the receiver.  The code fires
them via Promise.all; the database serializes the two atomic statements in
some order, and both orders produce the same table, so they are listed
payer-first. -/
def transferOps (fromId toId : Nat) (amount : ℚ) : List BalanceOp :=
  [⟨fromId, -amount⟩, ⟨toId, amount⟩]

/-- `transfer` from src/src/utils.js: unconditionally applies the two relative
balance updates.  There is no balance check and no failure path in the
function itself. -/
def transfer (fromId toId : Nat) (amount : ℚ) (db : DB) : DB :=
  { db with profiles := execOps db.profiles (transferOps fromId toId amount) }

/-- Outcomes of the POST /jobs/:job_id/pay handler in src/src/app.js.
typeError models the uncaught TypeError thrown by destructuring
`job.Contract` when the lookup returned null; notFound models the 404
response of the `if (!job)` check, which sits after that destructuring line;
internalError is the 500 produced by the catch block around the
transaction. -/
inductive PayErr
  | typeError
  | notFound
  | alreadyPaid
  | insufficientBalance
  | internalError
deriving Repr, DecidableEq

/-- The Job.findOne of the pay handler: the row with the given job id whose
included Contract has ClientId equal to the caller, together with that
contract. -/
def findJobRow (db : DB) (jobId profileId : Nat) : Option (Job × Contract) :=
  match db.jobs.find? (fun j => j.id = jobId) with
  | none => none
  | some j =>
    match db.contracts.find? (fun c => c.id = j.contractId) with
    | none => none
    | some c => if c.clientId = profileId then some (j, c) else none

/-- The Job.update of the pay handler: set paid := true and paymentDate on
every job row matching the WHERE id clause. -/
def markPaid (js : List Job) (jobId : Nat) (now : Nat) : List Job :=
  js.map fun j =>
    if j.id = jobId then { j with paid := some true, paymentDate := some now } else j

/-- The POST /jobs/:job_id/pay handler of src/src/app.js.  Control flow of
the source, in order: find the job (null result crashes on the destructuring
before the 404 check); reject if job.paid is truthy; reject if client.balance
< job.value (job.value is undefined, so this comparison is always false);
a missing included Client profile crashes on `client.balance` (outside the
try block), a missing Contractor crashes inside the try block and is caught
as a 500; otherwise run the transfer of job.price and mark the job paid.
`now` is the clock value used for paymentDate. -/
def payJob (db : DB) (jobId profileId : Nat) (now : Nat) : Except PayErr DB :=
  match findJobRow db jobId profileId with
  | none => .error .typeError
  | some (job, c) =>
    if jsTruthy job.paid then .error .alreadyPaid
    else
      match db.profiles.find? (fun p => p.id = c.clientId) with
      | none => .error .typeError
      | some client =>
        if jsLtOpt client.balance job.value then .error .insufficientBalance
        else
          match db.profiles.find? (fun p => p.id = c.contractorId) with
          | none => .error .internalError
          | some contractor =>
            .ok { transfer client.id contractor.id job.price db with
                    jobs := markPaid db.jobs job.id now }

/-- The options object passed to a Sequelize Model.update call.  A statement
participates in a managed transaction exactly when the options carry it in
their transaction field; Model.update(values, options) takes two arguments
and ignores anything passed after them. -/
structure UpdateOptions where
  transaction : Option Nat
deriving Repr, DecidableEq

/-- The options argument built for both Profile.update calls in
src/src/utils.js: a bare where clause.  The open transaction t is passed as a
third positional argument, which Model.update ignores, so the options carry
no transaction. -/
def transferUpdateOptions : UpdateOptions := { transaction := none }

/-- The options argument of the Job.update call in the pay handler: likewise a
bare where clause, with the transaction passed as an ignored third positional
argument. -/
def jobUpdateOptions : UpdateOptions := { transaction := none }

/-- Whether an update statement is bound to the managed transaction and hence
rolled back when the transaction callback throws. -/
def UpdateOptions.bound (o : UpdateOptions) : Bool :=
  o.transaction.isSome

/-- The pay handler's execution when the Job.update statement fails with a
storage error: sequelize.transaction rolls back exactly the statements bound
to it via their options, the callback's rejection is caught and answered with
a 500.  The two balance updates issued by transfer are rolled back only if
transferUpdateOptions is bound; otherwise they persist.  Returns the boundary
response together with the state that persists. -/
def payJobUnderJobUpdateFault (db : DB) (jobId profileId : Nat) :
    Except PayErr Unit × DB :=
  match findJobRow db jobId profileId with
  | none => (.error .typeError, db)
  | some (job, c) =>
    if jsTruthy job.paid then (.error .alreadyPaid, db)
    else
      match db.profiles.find? (fun p => p.id = c.clientId) with
      | none => (.error .typeError, db)
      | some client =>
        if jsLtOpt client.balance job.value then (.error .insufficientBalance, db)
        else
          match db.profiles.find? (fun p => p.id = c.contractorId) with
          | none => (.error .internalError, db)
          | some contractor =>
            let persisted :=
              if transferUpdateOptions.bound then db
              else transfer client.id contractor.id job.price db
            (.error .internalError, persisted)

/-- Outcomes of the POST /balances/deposit/:userId handler. -/
inductive DepErr
  | selfDeposit
  | invalidAmount
  | exceedsCap
deriving Repr, DecidableEq

/-- Whether a job belongs (via its contract) to the given client: the
`$Contract.ClientId$` include condition of the deposit handler's Job.sum. -/
def jobClientIs (db : DB) (j : Job) (clientId : Nat) : Bool :=
  match db.contracts.find? (fun c => c.id = j.contractId) with
  | some c => c.clientId = clientId
  | none => false

/-- `Job.sum('price', ...)` of the deposit handler: the SQL SUM of price over
jobs whose contract's client is the payer and whose paid column is NULL.  SQL
SUM over zero rows is NULL, modelled as none. -/
def unpaidJobSum (db : DB) (clientId : Nat) : Option ℚ :=
  let rows := db.jobs.filter fun j => j.paid = none && jobClientIs db j clientId
  match rows with
  | [] => none
  | _ => some (rows.map Job.price).sum

/-- `maxDepositValue = (25 * totalAmountToBePaid) / 100` of the deposit
handler, with JavaScript coercing a NULL sum to 0. -/
def maxDepositValue (db : DB) (clientId : Nat) : ℚ :=
  25 * jsNum (unpaidJobSum db clientId) / 100

/-- The POST /balances/deposit/:userId handler of src/src/app.js, in source
order: reject a self-deposit; reject a non-positive amount (`!amount ||
amount <= 0`); reject an amount above maxDepositValue; otherwise run the
transfer from the payer to the beneficiary. -/
def deposit (db : DB) (profileId userId : Nat) (amount : ℚ) : Except DepErr DB :=
  if userId = profileId then .error .selfDeposit
  else if amount ≤ 0 then .error .invalidAmount
  else if maxDepositValue db profileId < amount then .error .exceedsCap
  else .ok (transfer profileId userId amount db)

/-- Balance of the (first) profile row with the given id. -/
def balanceOf (db : DB) (pid : Nat) : Option ℚ :=
  (db.profiles.find? (fun p => p.id = pid)).map Profile.balance

/-- Sum of all balances in the system. -/
def sumBalances (db : DB) : ℚ :=
  (db.profiles.map Profile.balance).sum

/-- Example state of the spec's insufficient-funds test: client 10 with
balance 150, contractor 20 with balance 0, unpaid job 1 of price 200 under
contract 5 between them. -/
def dbPoor : DB :=
  { profiles := [⟨10, 150⟩, ⟨20, 0⟩], contracts := [⟨5, 10, 20⟩],
    jobs := [⟨1, 5, 200, none, none⟩] }

/-- Example state of the spec's success test: client 10 with balance 500,
contractor 20 with balance 0, unpaid job 1 of price 200 under contract 5. -/
def dbRich : DB :=
  { profiles := [⟨10, 500⟩, ⟨20, 0⟩], contracts := [⟨5, 10, 20⟩],
    jobs := [⟨1, 5, 200, none, none⟩] }

/-- Example state with a contract whose client and contractor are the same
profile 1: unpaid job 3 of price 200 under contract 7. -/
def dbSelf : DB :=
  { profiles := [⟨1, 500⟩], contracts := [⟨7, 1, 1⟩],
    jobs := [⟨3, 7, 200, none, none⟩] }

/-- Example state of the spec's deposit-cap boundary test: payer 1 has one
unpaid job of price 100 (outstanding = 100), beneficiary 2 exists. -/
def dbCap : DB :=
  { profiles := [⟨1, 500⟩, ⟨2, 0⟩, ⟨3, 0⟩], contracts := [⟨9, 1, 3⟩],
    jobs := [⟨4, 9, 100, none, none⟩] }

/-- Example state where payer 1 has no jobs at all. -/
def dbNoJobs : DB :=
  { profiles := [⟨1, 500⟩, ⟨2, 0⟩], contracts := [], jobs := [] }

/-! ## Helper lemmas -/

/-- find? commutes with a map that preserves the predicate. -/
theorem find?_map_of_pred {α : Type} (f : α → α) (q : α → Bool)
    (hf : ∀ a, q (f a) = q a) (l : List α) :
    (l.map f).find? q = (l.find? q).map f := by
  induction l with
  | nil => rfl
  | cons a t ih =>
    by_cases h : q a = true
    · simp [List.find?_cons, hf a, h]
    · have h' : q a = false := by simpa using h
      simp [List.find?_cons, hf a, h', ih]

/-- The row function of applyOp. -/
def opFun (op : BalanceOp) : Profile → Profile :=
  fun p => if p.id = op.pid then { p with balance := p.balance + op.delta } else p

theorem applyOp_eq_map (ps : List Profile) (op : BalanceOp) :
    applyOp ps op = ps.map (opFun op) := rfl

theorem opFun_id (op : BalanceOp) (p : Profile) : (opFun op p).id = p.id := by
  unfold opFun
  split <;> rfl

theorem find?_applyOp (ps : List Profile) (op : BalanceOp) (k : Nat) :
    (applyOp ps op).find? (fun p => p.id = k)
      = (ps.find? (fun p => p.id = k)).map (opFun op) := by
  rw [applyOp_eq_map]
  exact find?_map_of_pred _ _ (fun a => by simp [opFun_id]) ps

theorem applyOp_map_id (ps : List Profile) (op : BalanceOp) :
    (applyOp ps op).map Profile.id = ps.map Profile.id := by
  rw [applyOp_eq_map, List.map_map]
  exact List.map_congr_left fun p _ => opFun_id op p

theorem sum_applyOp (ps : List Profile) (op : BalanceOp)
    (h : (ps.map Profile.id).Nodup) :
    ((applyOp ps op).map Profile.balance).sum
      = (ps.map Profile.balance).sum
        + (if op.pid ∈ ps.map Profile.id then op.delta else 0) := by
  induction ps with
  | nil => simp [applyOp]
  | cons p t ih =>
    rw [List.map_cons, List.nodup_cons] at h
    rw [applyOp_eq_map, List.map_cons, List.map_cons, List.map_cons, List.sum_cons,
      List.sum_cons, ← applyOp_eq_map, ih h.2]
    by_cases hp : p.id = op.pid
    · have hnot : op.pid ∉ t.map Profile.id := hp ▸ h.1
      simp [opFun, hp, hnot, List.mem_cons]
      ring
    · have : (op.pid ∈ p.id :: t.map Profile.id) ↔ (op.pid ∈ t.map Profile.id) := by
        simp [List.mem_cons]
        intro heq
        exact absurd heq.symm hp
      by_cases hm : op.pid ∈ t.map Profile.id
      · simp [opFun, hp, this, hm]
        ring
      · simp [opFun, hp, this, hm]

theorem opFun_eq (op : BalanceOp) (p : Profile) :
    opFun op p = ⟨p.id, p.balance + (if p.id = op.pid then op.delta else 0)⟩ := by
  unfold opFun
  split_ifs with h
  · rfl
  · simp

theorem opFun_comm (a b : BalanceOp) (p : Profile) :
    opFun b (opFun a p) = opFun a (opFun b p) := by
  rw [opFun_eq a p, opFun_eq b p, opFun_eq b _, opFun_eq a _]
  dsimp only
  congr 1
  ring

theorem applyOp_comm (ps : List Profile) (a b : BalanceOp) :
    applyOp (applyOp ps a) b = applyOp (applyOp ps b) a := by
  simp only [applyOp_eq_map, List.map_map]
  exact List.map_congr_left fun p _ => opFun_comm a b p

theorem transfer_map_id (fromId toId : Nat) (a : ℚ) (db : DB) :
    (transfer fromId toId a db).profiles.map Profile.id
      = db.profiles.map Profile.id := by
  show ((execOps db.profiles (transferOps fromId toId a)).map Profile.id) = _
  unfold execOps transferOps
  rw [List.foldl_cons, List.foldl_cons, List.foldl_nil, applyOp_map_id, applyOp_map_id]

theorem sumBalances_transfer (db : DB) (fromId toId : Nat) (a : ℚ)
    (hnd : (db.profiles.map Profile.id).Nodup)
    (hf : fromId ∈ db.profiles.map Profile.id)
    (ht : toId ∈ db.profiles.map Profile.id) :
    sumBalances (transfer fromId toId a db) = sumBalances db := by
  show ((execOps db.profiles (transferOps fromId toId a)).map Profile.balance).sum = _
  unfold execOps transferOps
  rw [List.foldl_cons, List.foldl_cons, List.foldl_nil]
  have h1 : ((applyOp db.profiles ⟨fromId, -a⟩).map Profile.id)
      = db.profiles.map Profile.id := applyOp_map_id _ _
  rw [sum_applyOp _ _ (by rw [h1]; exact hnd), h1, sum_applyOp _ _ hnd,
    if_pos hf, if_pos ht]
  unfold sumBalances
  ring

theorem execOps_append (ps : List Profile) (l1 l2 : List BalanceOp) :
    execOps ps (l1 ++ l2) = execOps (execOps ps l1) l2 :=
  List.foldl_append ..

theorem sumBalances_transfer_foldl (ts : List (Nat × Nat × ℚ)) (db : DB)
    (hnd : (db.profiles.map Profile.id).Nodup)
    (h : ∀ t ∈ ts, t.1 ∈ db.profiles.map Profile.id ∧
          t.2.1 ∈ db.profiles.map Profile.id) :
    sumBalances (ts.foldl (fun d t => transfer t.1 t.2.1 t.2.2 d) db)
      = sumBalances db := by
  induction ts generalizing db with
  | nil => rfl
  | cons t ts ih =>
    rw [List.foldl_cons]
    have ht := h t (List.mem_cons_self ..)
    have hid := transfer_map_id t.1 t.2.1 t.2.2 db
    have hrest : ∀ u ∈ ts,
        u.1 ∈ (transfer t.1 t.2.1 t.2.2 db).profiles.map Profile.id ∧
        u.2.1 ∈ (transfer t.1 t.2.1 t.2.2 db).profiles.map Profile.id := by
      intro u hu
      rw [hid]
      exact h u (List.mem_cons_of_mem _ hu)
    rw [ih (transfer t.1 t.2.1 t.2.2 db) (by rw [hid]; exact hnd) hrest]
    exact sumBalances_transfer db t.1 t.2.1 t.2.2 hnd ht.1 ht.2

theorem execOps_flatMap_transferOps (ts : List (Nat × Nat × ℚ)) (db : DB) :
    execOps db.profiles (ts.flatMap fun t => transferOps t.1 t.2.1 t.2.2)
      = (ts.foldl (fun d t => transfer t.1 t.2.1 t.2.2 d) db).profiles := by
  induction ts generalizing db with
  | nil => rfl
  | cons t ts ih =>
    rw [List.flatMap_cons, execOps_append, List.foldl_cons]
    exact ih (transfer t.1 t.2.1 t.2.2 db)

theorem payJob_found_unpaid (db : DB) (jobId pid now : Nat) (job : Job)
    (c : Contract) (client contractor : Profile)
    (hj : db.jobs.find? (fun j => j.id = jobId) = some job)
    (hc : db.contracts.find? (fun k => k.id = job.contractId) = some c)
    (hcl : c.clientId = pid)
    (hclient : db.profiles.find? (fun p => p.id = c.clientId) = some client)
    (hcontr : db.profiles.find? (fun p => p.id = c.contractorId) = some contractor)
    (hunpaid : job.paid = none) :
    payJob db jobId pid now
      = .ok { transfer client.id contractor.id job.price db with
                jobs := markPaid db.jobs job.id now } := by
  subst hcl
  simp only [payJob, findJobRow, hj, hc, hclient, hcontr, hunpaid, jsTruthy,
    jsLtOpt, Job.value, if_true, ite_self, if_pos rfl, Bool.false_eq_true,
    if_false]

theorem balanceOf_transfer_src (db : DB) (src dst : Nat) (a : ℚ) (p : Profile)
    (hp : db.profiles.find? (fun q => q.id = src) = some p)
    (hne : src ≠ dst) :
    balanceOf (transfer src dst a db) src = some (p.balance - a) := by
  show ((execOps db.profiles (transferOps src dst a)).find?
    (fun q => q.id = src)).map Profile.balance = _
  unfold execOps transferOps
  rw [List.foldl_cons, List.foldl_cons, List.foldl_nil, find?_applyOp,
    find?_applyOp, hp]
  have hid : p.id = src := by simpa using List.find?_some hp
  simp [opFun_eq, hid, hne, sub_eq_add_neg]

theorem balanceOf_transfer_dst (db : DB) (src dst : Nat) (a : ℚ) (p : Profile)
    (hp : db.profiles.find? (fun q => q.id = dst) = some p)
    (hne : src ≠ dst) :
    balanceOf (transfer src dst a db) dst = some (p.balance + a) := by
  show ((execOps db.profiles (transferOps src dst a)).find?
    (fun q => q.id = dst)).map Profile.balance = _
  unfold execOps transferOps
  rw [List.foldl_cons, List.foldl_cons, List.foldl_nil, find?_applyOp,
    find?_applyOp, hp]
  have hid : p.id = dst := by simpa using List.find?_some hp
  have hne2 : dst ≠ src := fun h => hne h.symm
  simp [opFun_eq, hid, hne2]

theorem find?_markPaid (js : List Job) (key now jobId : Nat) (job : Job)
    (hj : js.find? (fun j => j.id = jobId) = some job) (hkey : job.id = key) :
    (markPaid js key now).find? (fun j => j.id = jobId)
      = some { job with paid := some true, paymentDate := some now } := by
  unfold markPaid
  rw [find?_map_of_pred _ _ (fun a => by split <;> rfl) js, hj]
  simp [hkey]

/-! ## Claim theorems -/

/-- C3: Conservation of money — a successful transfer between two existing,
distinct profiles leaves the sum of all profile balances unchanged, and hence
so does any sequence of such transfers.  (In the code a transfer between
existing profiles always succeeds, since src/src/utils.js has no failure
path.) -/
theorem conservation_of_money (db : DB)
    (hnd : (db.profiles.map Profile.id).Nodup) :
    (∀ fromId toId (a : ℚ), fromId ∈ db.profiles.map Profile.id →
        toId ∈ db.profiles.map Profile.id → fromId ≠ toId →
        sumBalances (transfer fromId toId a db) = sumBalances db) ∧
    (∀ ts : List (Nat × Nat × ℚ),
        (∀ t ∈ ts, t.1 ∈ db.profiles.map Profile.id ∧
          t.2.1 ∈ db.profiles.map Profile.id ∧ t.1 ≠ t.2.1) →
        sumBalances (ts.foldl (fun d t => transfer t.1 t.2.1 t.2.2 d) db)
          = sumBalances db) := by
  constructor
  · intro fromId toId a hf ht _hne
    exact sumBalances_transfer db fromId toId a hnd hf ht
  · intro ts h
    exact sumBalances_transfer_foldl ts db hnd fun t htm =>
      ⟨(h t htm).1, (h t htm).2.1⟩

/-- Witness for C3 on concrete data: two transfers between profiles 10 and 20
of dbRich leave the total balance at 500. -/
theorem conservation_of_money_witness :
    sumBalances (([(10, 20, (50 : ℚ)), (20, 10, (30 : ℚ))] :
        List (Nat × Nat × ℚ)).foldl
      (fun d t => transfer t.1 t.2.1 t.2.2 d) dbRich) = sumBalances dbRich :=
  (conservation_of_money dbRich (by decide)).2 _ (by decide)

/-- C9: Per-profile linearizability — the two SQL statements of each transfer
are atomic relative updates, so executing any interleaving (permutation) of
the statements of a batch of concurrent transfers produces exactly the
balances of the serial execution of those transfers: no lost update is
possible, and no stale read-modify-write is ever written (the engine never
reads a balance into the application). -/
theorem concurrent_transfers_linearizable (db : DB)
    (ts : List (Nat × Nat × ℚ)) (ops : List BalanceOp)
    (hperm : List.Perm ops (ts.flatMap fun t => transferOps t.1 t.2.1 t.2.2)) :
    execOps db.profiles ops
      = (ts.foldl (fun d t => transfer t.1 t.2.1 t.2.2 d) db).profiles :=
  (hperm.foldl_eq' (fun x _ y _ z => applyOp_comm z x y) db.profiles).trans
    (execOps_flatMap_transferOps ts db)

/-- Witness for C9 on concrete data: a true interleaving of the statements of
two opposite transfers between 10 and 20 equals their serial execution. -/
theorem concurrent_transfers_linearizable_witness :
    execOps dbRich.profiles [⟨10, -5⟩, ⟨20, -7⟩, ⟨20, 5⟩, ⟨10, 7⟩]
      = (([(10, 20, (5 : ℚ)), (20, 10, (7 : ℚ))] :
          List (Nat × Nat × ℚ)).foldl
          (fun d t => transfer t.1 t.2.1 t.2.2 d) dbRich).profiles :=
  concurrent_transfers_linearizable dbRich _ _ (by decide)

/-- C5 counterexample: in dbSelf the contract of unpaid job 3 (price 200) has
client = contractor = profile 1 with balance 500 ≥ 200, so the job is unpaid
and affordable; payJob succeeds, yet the client's balance afterwards is still
500, not 500 - 200 = 300 as the claim requires. -/
theorem payJob_self_contract_counterexample :
    (payJob dbSelf 3 1 0).toOption.map (fun d => balanceOf d 1)
        = some (some 500) ∧ (500 : ℚ) ≠ 500 - 200 := by
  constructor
  · norm_num [payJob, findJobRow, dbSelf, jsTruthy, jsLtOpt, Job.value,
      transfer, execOps, transferOps, applyOp, markPaid, balanceOf,
      Except.toOption]
  · norm_num

/-- C5 (amended with distinct client and contractor): for an unpaid job whose
contract's client and contractor are distinct existing profiles and whose
client can afford the price, payJob succeeds, decreases the client's balance
by exactly the price, increases the contractor's balance by exactly the
price, and stores the job with paid = true and paymentDate set (so for that
job, paymentDate is set exactly when it is paid). -/
theorem payJob_success_distinct (db : DB) (jobId pid now : Nat) (job : Job)
    (c : Contract) (client contractor : Profile)
    (hj : db.jobs.find? (fun j => j.id = jobId) = some job)
    (hc : db.contracts.find? (fun k => k.id = job.contractId) = some c)
    (hcl : c.clientId = pid)
    (hclient : db.profiles.find? (fun p => p.id = c.clientId) = some client)
    (hcontr : db.profiles.find? (fun p => p.id = c.contractorId) = some contractor)
    (hunpaid : job.paid = none)
    (_hafford : job.price ≤ client.balance)
    (hne : client.id ≠ contractor.id) :
    ∃ db2, payJob db jobId pid now = .ok db2 ∧
      balanceOf db2 client.id = some (client.balance - job.price) ∧
      balanceOf db2 contractor.id = some (contractor.balance + job.price) ∧
      db2.jobs.find? (fun j => j.id = jobId)
        = some { job with paid := some true, paymentDate := some now } := by
  have hcid : client.id = c.clientId := by simpa using List.find?_some hclient
  have htid : contractor.id = c.contractorId := by
    simpa using List.find?_some hcontr
  have hjid : job.id = jobId := by simpa using List.find?_some hj
  refine ⟨_, payJob_found_unpaid db jobId pid now job c client contractor
    hj hc hcl hclient hcontr hunpaid, ?_, ?_, ?_⟩
  · exact balanceOf_transfer_src db client.id contractor.id job.price client
      (by rw [hcid]; exact hclient) hne
  · exact balanceOf_transfer_dst db client.id contractor.id job.price
      contractor (by rw [htid]; exact hcontr) hne
  · exact find?_markPaid db.jobs job.id now jobId job hj rfl

/-- Witness for C5 (amended) at the spec's success example: dbRich has client
10 (balance 500), contractor 20 (balance 0) and unpaid job 1 of price 200;
after payJob the client holds 300, the contractor 200, and job 1 is stored
paid with its payment date. -/
theorem payJob_success_distinct_witness :
    ∃ db2, payJob dbRich 1 10 7 = .ok db2 ∧
      balanceOf db2 10 = some (500 - 200) ∧
      balanceOf db2 20 = some (0 + 200) ∧
      db2.jobs.find? (fun j => j.id = 1)
        = some { id := 1, contractId := 5, price := 200, paid := some true,
                 paymentDate := some 7 } :=
  payJob_success_distinct dbRich 1 10 7 ⟨1, 5, 200, none, none⟩ ⟨5, 10, 20⟩
    ⟨10, 500⟩ ⟨20, 0⟩ rfl rfl rfl rfl rfl rfl (by decide) (by decide)

/-- C8: Idempotence in effect — paying the same affordable unpaid job twice
succeeds the first time, answers AlreadyPaid the second time, and the balance
statements of the transfer are applied exactly once (the persisted profile
table is exactly one application of the transfer's two updates, and the
failed second call performs no mutation). -/
theorem payJob_twice_alreadyPaid (db : DB) (jobId pid now now2 : Nat)
    (job : Job) (c : Contract) (client contractor : Profile)
    (hj : db.jobs.find? (fun j => j.id = jobId) = some job)
    (hc : db.contracts.find? (fun k => k.id = job.contractId) = some c)
    (hcl : c.clientId = pid)
    (hclient : db.profiles.find? (fun p => p.id = c.clientId) = some client)
    (hcontr : db.profiles.find? (fun p => p.id = c.contractorId) = some contractor)
    (hunpaid : job.paid = none)
    (_hafford : job.price ≤ client.balance) :
    ∃ db2, payJob db jobId pid now = .ok db2 ∧
      db2.profiles
        = execOps db.profiles (transferOps client.id contractor.id job.price) ∧
      payJob db2 jobId pid now2 = .error .alreadyPaid := by
  refine ⟨_, payJob_found_unpaid db jobId pid now job c client contractor
    hj hc hcl hclient hcontr hunpaid, rfl, ?_⟩
  have hjobs : (markPaid db.jobs job.id now).find? (fun j => j.id = jobId)
      = some { job with paid := some true, paymentDate := some now } :=
    find?_markPaid db.jobs job.id now jobId job hj rfl
  have hctr : (transfer client.id contractor.id job.price db).contracts
      = db.contracts := rfl
  simp [payJob, findJobRow, hjobs, hctr, hc, hcl, jsTruthy]

/-- Witness for C8 on dbRich: paying job 1 succeeds once, applies the two
balance statements of the 200-transfer exactly once, and the second call
answers AlreadyPaid. -/
theorem payJob_twice_alreadyPaid_witness :
    ∃ db2, payJob dbRich 1 10 7 = .ok db2 ∧
      db2.profiles
        = execOps dbRich.profiles
            (transferOps (Profile.mk 10 500).id (Profile.mk 20 0).id
              (Job.mk 1 5 200 none none).price) ∧
      payJob db2 1 10 9 = .error .alreadyPaid :=
  payJob_twice_alreadyPaid dbRich 1 10 7 9 ⟨1, 5, 200, none, none⟩
    ⟨5, 10, 20⟩ ⟨10, 500⟩ ⟨20, 0⟩ rfl rfl rfl rfl rfl rfl (by norm_num)

/-- C1 (code bug): the transfer engine never checks the payer's balance
(src/src/utils.js applies both relative updates unconditionally) and the pay
handler's guard compares client.balance with the nonexistent job.value
(undefined, so the comparison is always false) while transferring job.price.
At the spec's own insufficient-funds example — client 10 with balance 150,
unpaid job 1 of price 200 — payJob succeeds instead of failing with
InsufficientBalance, and the persisted state holds the negative balance
-50. -/
theorem payJob_overdraft_evaluation :
    payJob dbPoor 1 10 0
      = .ok { profiles := [⟨10, -50⟩, ⟨20, 200⟩], contracts := [⟨5, 10, 20⟩],
              jobs := [⟨1, 5, 200, some true, some 0⟩] } ∧
    jsLtOpt (150 : ℚ) (Job.value ⟨1, 5, 200, none, none⟩) = false ∧
    (-50 : ℚ) < 0 := by
  refine ⟨?_, rfl, by norm_num⟩
  norm_num [payJob, findJobRow, dbPoor, jsTruthy, jsLtOpt, Job.value,
    transfer, execOps, transferOps, applyOp, markPaid]

/-- C2 (code bug): the pay handler is not atomic.  Every update call receives
the open transaction as a third positional argument that Model.update
ignores, so no statement is bound to the managed transaction
(transferUpdateOptions and jobUpdateOptions carry none).  When the Job.update
step fails, the already-issued balance updates persist: on dbRich the fault
run answers InternalError yet leaves client 10 at 300 and contractor 20 at
200 with job 1 still unpaid — the balance change commits without the paid
flag. -/
theorem payJob_fault_not_atomic :
    transferUpdateOptions.bound = false ∧ jobUpdateOptions.bound = false ∧
    payJobUnderJobUpdateFault dbRich 1 10
      = (.error .internalError,
         { profiles := [⟨10, 300⟩, ⟨20, 200⟩], contracts := [⟨5, 10, 20⟩],
           jobs := [⟨1, 5, 200, none, none⟩] }) := by
  refine ⟨rfl, rfl, ?_⟩
  norm_num [payJobUnderJobUpdateFault, findJobRow, dbRich, jsTruthy, jsLtOpt,
    Job.value, transfer, execOps, transferOps, applyOp, transferUpdateOptions,
    UpdateOptions.bound]

/-- C4 (code bug): looking up a missing job (999) or a job whose contract's
client is not the caller (job 1 as profile 20) makes the pay handler throw a
TypeError while destructuring job.Contract, because the `if (!job)` 404 check
sits after that line; no state is mutated, but the boundary outcome is the
crash, never the 404 JobNotFound response — notFound is unreachable for every
input. -/
theorem payJob_missing_job_crashes :
    payJob dbRich 999 10 0 = .error .typeError ∧
    payJob dbRich 1 20 0 = .error .typeError ∧
    ∀ (db : DB) (jobId pid now : Nat),
      payJob db jobId pid now ≠ .error .notFound := by
  refine ⟨by norm_num [payJob, findJobRow, dbRich],
    by norm_num [payJob, findJobRow, dbRich], ?_⟩
  intro db jobId pid now
  unfold payJob
  split
  · simp
  · split
    · simp
    · split
      · simp
      · split
        · simp
        · split
          · simp
          · simp

/-- The outstanding total in the spec's words (§4.3 step 3): the sum of price
over all jobs whose contract's client is the payer and whose paid state is
UNPAID.  Second definition kept deliberately distinct from the source-side
unpaidJobSum (SQL SUM returning NULL on zero rows, coerced by JavaScript) so
the cap policy can be stated as a refinement. -/
def outstandingSpec (db : DB) (clientId : Nat) : ℚ :=
  ((db.jobs.filter fun j => j.paid = none && jobClientIs db j clientId).map
    Job.price).sum

theorem jsNum_unpaidJobSum (db : DB) (pid : Nat) :
    jsNum (unpaidJobSum db pid) = outstandingSpec db pid := by
  unfold jsNum unpaidJobSum outstandingSpec
  cases h : db.jobs.filter fun j => j.paid = none && jobClientIs db j pid with
  | nil => simp [h]
  | cons a t => simp [h]

/-- C7: a deposit whose beneficiary is the payer always fails with
SelfDepositForbidden — for every state and every amount, before any other
validation, with no state mutated (the handler returns without touching the
tables). -/
theorem deposit_self_forbidden (db : DB) (pid : Nat) (amount : ℚ) :
    deposit db pid pid amount = .error .selfDeposit := by
  unfold deposit
  rw [if_pos rfl]

/-- C6: the deposit cap equals 25% of the payer's outstanding total (the sum
of prices of the payer's unpaid jobs), and a non-self deposit of a positive
amount is rejected with DepositExceedsCap exactly when the amount exceeds the
cap; when it does not, the deposit proceeds as a transfer from payer to
beneficiary. -/
theorem deposit_cap_policy (db : DB) (pid uid : Nat) (amount : ℚ)
    (hne : uid ≠ pid) (hpos : 0 < amount) :
    maxDepositValue db pid = 25 / 100 * outstandingSpec db pid ∧
    (deposit db pid uid amount = .error .exceedsCap ↔
      maxDepositValue db pid < amount) ∧
    (¬ maxDepositValue db pid < amount →
      deposit db pid uid amount = .ok (transfer pid uid amount db)) := by
  have h1 : maxDepositValue db pid = 25 / 100 * outstandingSpec db pid := by
    unfold maxDepositValue
    rw [jsNum_unpaidJobSum]
    ring
  refine ⟨h1, ?_, ?_⟩
  · unfold deposit
    rw [if_neg hne, if_neg (not_le.mpr hpos)]
    by_cases hcap : maxDepositValue db pid < amount
    · simp [hcap]
    · simp [hcap]
  · intro hcap
    unfold deposit
    rw [if_neg hne, if_neg (not_le.mpr hpos), if_neg hcap]

/-- Witness for C6 at the spec's boundary example: in dbCap the payer's
outstanding total is 100, so a deposit of 25 to profile 2 succeeds and a
deposit of 26 fails with DepositExceedsCap. -/
theorem deposit_cap_policy_witness :
    deposit dbCap 1 2 25 = .ok (transfer 1 2 25 dbCap) ∧
    deposit dbCap 1 2 26 = .error .exceedsCap := by
  constructor
  · exact (deposit_cap_policy dbCap 1 2 25 (by norm_num) (by norm_num)).2.2
      (by norm_num [maxDepositValue, unpaidJobSum, jsNum, dbCap, jobClientIs])
  · exact ((deposit_cap_policy dbCap 1 2 26 (by norm_num) (by norm_num)).2.1).mpr
      (by norm_num [maxDepositValue, unpaidJobSum, jsNum, dbCap, jobClientIs])

/-- C10 (implicit): a payer with no unpaid jobs gets a NULL outstanding sum,
hence a cap of 0, so every positive deposit amount — after the self-deposit
and positivity checks pass — is rejected with DepositExceedsCap: such a
profile can never deposit anything. -/
theorem deposit_no_unpaid_jobs (db : DB) (pid uid : Nat) (amount : ℚ)
    (hempty : db.jobs.filter (fun j => j.paid = none && jobClientIs db j pid)
        = [])
    (hne : uid ≠ pid) (hpos : 0 < amount) :
    maxDepositValue db pid = 0 ∧
    deposit db pid uid amount = .error .exceedsCap := by
  have hcap : maxDepositValue db pid = 0 := by
    unfold maxDepositValue unpaidJobSum
    rw [hempty]
    simp [jsNum]
  refine ⟨hcap, ?_⟩
  unfold deposit
  rw [if_neg hne, if_neg (not_le.mpr hpos), if_pos (by rw [hcap]; exact hpos)]

/-- Witness for C10: in dbNoJobs profile 1 has no jobs at all, and a deposit
of 1 to profile 2 is rejected with DepositExceedsCap. -/
theorem deposit_no_unpaid_jobs_witness :
    maxDepositValue dbNoJobs 1 = 0 ∧
    deposit dbNoJobs 1 2 1 = .error .exceedsCap :=
  deposit_no_unpaid_jobs dbNoJobs 1 2 1 rfl (by norm_num) (by norm_num)

end DeelBackend
